import Mathlib

/-
Verification development for the notion_agent content pipeline.

The development shallowly embeds the parts of the code base that the
stated properties concern:

  * server/service/llm/rich_text_llm.py      (Span Annotator,
    create_formatted_rich_text_array)
  * server/service/preprocessing.py          (Instruction Splitter,
    call_preprocessing_agent and extract_result_text)
  * server/service/tools/block_tool.py       (block construction helpers
    and the unified tool wrapper for tables)

Python dictionaries are embedded as insertion-ordered association lists
with last-write-wins assignment (dictSet), matching CPython dict
semantics.  The external language-model oracle is embedded by its
observable outcome: the call either raises, returns text that the
subsequent json.loads rejects, or returns text that parses to a JSON
value.  All definitions are executable.
-/

/-- Untyped values exchanged between the pipeline stages, mirroring the
Python values produced by json.loads: null, booleans, numbers, strings,
arrays and objects (objects as insertion-ordered key/value lists). -/
inductive Json where
  | null : Json
  | bool (b : Bool) : Json
  | num (n : Int) : Json
  | str (s : String) : Json
  | arr (elems : List Json) : Json
  | obj (fields : List (String × Json)) : Json
deriving Repr

/-- Lookup of a key in an association list, first match wins; this is
Python dict access for dictionaries built with dictSet. -/
def dictGet {α : Type} : List (String × α) → String → Option α
  | [], _ => none
  | (k', v) :: rest, k => if k' = k then some v else dictGet rest k

/-- Python dict assignment d[k] = v: if the key is present its value is
replaced in place, otherwise the pair is appended at the end. -/
def dictSet {α : Type} : List (String × α) → String → α → List (String × α)
  | [], k, v => [(k, v)]
  | (k', v') :: rest, k, v =>
      if k' = k then (k, v) :: rest else (k', v') :: dictSet rest k v

/-- Python dict.update(upd): assign every pair of upd in order. -/
def dictUpdate {α : Type} (d upd : List (String × α)) : List (String × α) :=
  upd.foldl (fun acc p => dictSet acc p.1 p.2) d

/-- Python membership test "k in d" for an embedded dictionary. -/
def dictHas {α : Type} (d : List (String × α)) (k : String) : Bool :=
  (dictGet d k).isSome

/-- Field access on a JSON object; none on non-objects or missing keys. -/
def Json.getObj : Json → String → Option Json
  | Json.obj fields, k => dictGet fields k
  | _, _ => none

/-- Python str.strip(): remove leading and trailing whitespace. -/
def pyStrip (s : String) : String :=
  String.mk (((s.data.dropWhile Char.isWhitespace).reverse.dropWhile
    Char.isWhitespace).reverse)

/-- Python truthiness of a JSON-embedded value (used by walrus-guarded
caption handling and by the required-parameter check not data.get(p)). -/
def pyTruthy : Json → Bool
  | Json.null => false
  | Json.bool b => b
  | Json.num n => n != 0
  | Json.str s => s != ""
  | Json.arr l => !l.isEmpty
  | Json.obj l => !l.isEmpty

/-- Truthiness of an optional lookup result: a missing key is falsy. -/
def pyTruthyOpt : Option Json → Bool
  | none => false
  | some j => pyTruthy j

/-- Observable outcome of calling the language-model oracle and passing
the fence-stripped response text to json.loads: the call raises, or the
response is not valid JSON (json.loads raises), or it parses to a JSON
value.  The raising constructors carry the str(e) message of the raised
exception. -/
inductive OracleOutcome where
  | raises (msg : String) : OracleOutcome
  | unparsable (msg : String) : OracleOutcome
  | parsed (j : Json) : OracleOutcome

/-- Observable outcome of a plain oracle call whose response is used as
text without JSON parsing (extract_result_text): the call raises, or it
returns the response content string. -/
inductive LLMOutcome where
  | raises (msg : String) : LLMOutcome
  | returns (raw : String) : LLMOutcome

/-! ## Span Annotator: rich_text_llm.create_formatted_rich_text_array -/

/-- The all-default annotation record built by the annotator, in source
key order. -/
def defaultAnnotations : Json :=
  Json.obj [("bold", Json.bool false), ("italic", Json.bool false),
    ("strikethrough", Json.bool false), ("underline", Json.bool false),
    ("code", Json.bool false), ("color", Json.str "default")]

/-- The single plain segment covering the whole result text, as built in
both the blank-instructions branch and the fallback branch. -/
def plainRichTextSegment (result_text : String) : Json :=
  Json.obj [("type", Json.str "text"),
    ("text", Json.obj [("content", Json.str result_text)]),
    ("annotations", defaultAnnotations)]

/-- Embedding of create_formatted_rich_text_array.  The blank check is
the source test "not format_instructions.strip()".  The oracle branch
covers llm.invoke plus json.loads on the cleaned response; a response
that parses to a non-array raises ValueError inside the try block.  The
except handler returns the plain single-segment result tagged with
fallback.  The nested except (building a one-element literal list fails)
is unreachable and therefore not modelled. -/
def create_formatted_rich_text_array (oracle : OracleOutcome)
    (format_instructions result_text : String) : Json :=
  if pyStrip format_instructions = "" then
    Json.obj [("success", Json.bool true),
      ("rich_text_array", Json.arr [plainRichTextSegment result_text]),
      ("message", Json.str "Plain text without formatting created."),
      ("segments_count", Json.num 1)]
  else
    let fallback := fun (msg : String) =>
      Json.obj [("success", Json.bool true),
        ("rich_text_array", Json.arr [plainRichTextSegment result_text]),
        ("message", Json.str ("Formatting failed, returned plain text. Error: " ++ msg)),
        ("segments_count", Json.num 1),
        ("fallback", Json.bool true),
        ("format_instructions", Json.str format_instructions),
        ("result_text", Json.str result_text)]
    match oracle with
    | OracleOutcome.raises msg => fallback msg
    | OracleOutcome.unparsable msg => fallback msg
    | OracleOutcome.parsed j =>
      match j with
      | Json.arr rich_text_array =>
        Json.obj [("success", Json.bool true),
          ("rich_text_array", Json.arr rich_text_array),
          ("message", Json.str ("Formatted rich text array created with " ++
            toString rich_text_array.length ++ " segments.")),
          ("segments_count", Json.num rich_text_array.length),
          ("format_instructions", Json.str format_instructions),
          ("result_text", Json.str result_text)]
      | _ => fallback "Invalid response format - expected array"

/-- The content string of one rich text segment (segment.text.content),
empty when the field is absent or not a string. -/
def segContent (j : Json) : String :=
  match j.getObj "text" with
  | some t =>
    match t.getObj "content" with
    | some (Json.str s) => s
    | _ => ""
  | none => ""

/-- Concatenation of the segment contents of a segment list, in order. -/
def concatContents (l : List Json) : String :=
  (l.map segContent).foldr (fun a b => a ++ b) ""

/-- The segment list carried by an annotator result envelope. -/
def resultSegments (r : Json) : List Json :=
  match r.getObj "rich_text_array" with
  | some (Json.arr l) => l
  | _ => []

/-- Predicate on the oracle outcome stating the situations covered by
the annotator fallback: the call raised, the response failed to parse as
JSON, or it parsed to something other than an array. -/
def oracleFailed : OracleOutcome → Bool
  | OracleOutcome.raises _ => true
  | OracleOutcome.unparsable _ => true
  | OracleOutcome.parsed (Json.arr _) => false
  | OracleOutcome.parsed _ => true

/-! ## Instruction Splitter: preprocessing.py -/

/-- Result envelope of call_preprocessing_agent; both branches of the
source populate exactly these keys. -/
structure PreprocessResult where
  success : Bool
  block_instructions : Json
  format_instructions : Json
  result_text : String
  error : String
deriving Repr

/-- Embedding of extract_result_text: returns the stripped response
content, or the empty string when the oracle call raises. -/
def extract_result_text (oracle : LLMOutcome) : String :=
  match oracle with
  | LLMOutcome.returns raw => pyStrip raw
  | LLMOutcome.raises _ => ""

/-- Shape check performed by call_preprocessing_agent: the parsed oracle
response must be an object carrying both instruction keys. -/
def hasBothKeys : Json → Bool
  | Json.obj fields =>
      dictHas fields "block_instructions" && dictHas fields "format_instructions"
  | _ => false

/-- Embedding of call_preprocessing_agent.  splitOracle is the outcome
of the structural oracle call (invoke, fence-strip, json.loads);
textOracle is the outcome of the separate oracle call inside
extract_result_text.  A raised exception or parse failure, or a parsed
value that is not an object with both keys, lands in the except handler,
which returns failure with empty fields and error = str(e). -/
def call_preprocessing_agent (splitOracle : OracleOutcome)
    (textOracle : LLMOutcome) : PreprocessResult :=
  let fail := fun (msg : String) =>
    { success := false, block_instructions := Json.str "",
      format_instructions := Json.str "", result_text := "",
      error := msg : PreprocessResult }
  match splitOracle with
  | OracleOutcome.raises msg => fail msg
  | OracleOutcome.unparsable msg => fail msg
  | OracleOutcome.parsed parsed =>
    match parsed with
    | Json.obj fields =>
      match dictGet fields "block_instructions",
            dictGet fields "format_instructions" with
      | some bi, some fi =>
        { success := true, block_instructions := bi,
          format_instructions := fi,
          result_text := extract_result_text textOracle, error := "" }
      | some _, none => fail "Invalid response format"
      | none, _ => fail "Invalid response format"
    | _ => fail "Invalid response format"

/-! ## Block Store Adapter: block_tool.py -/

/-- Content argument of the text-bearing block builders, matching the
source annotation Union[str, List[Dict]]. -/
inductive Content where
  | text (s : String) : Content
  | richArray (l : List Json) : Content

/-- The module-level BLOCK_CONFIGS table of type-specific defaults. -/
def BLOCK_CONFIGS : List (String × List (String × Json)) :=
  [("heading_1", [("is_toggleable", Json.bool false), ("color", Json.str "default")]),
   ("heading_2", [("is_toggleable", Json.bool false), ("color", Json.str "default")]),
   ("heading_3", [("is_toggleable", Json.bool false), ("color", Json.str "default")]),
   ("to_do", [("checked", Json.bool false), ("color", Json.str "default")]),
   ("code", [("language", Json.str "python"), ("caption", Json.arr [])]),
   ("callout", [("icon", Json.obj [("emoji", Json.str "💡")]), ("color", Json.str "default")]),
   ("toggle", [("color", Json.str "default")])]

/-- The outer payload dict literal shared by all block builders,
built with dict-assignment semantics so that duplicate keys overwrite:
{"object": "block", "type": block_type, block_type: inner}. -/
def mkBlockObj (block_type : String) (inner : Json) : Json :=
  Json.obj (dictSet (dictSet (dictSet [] "object" (Json.str "block"))
    "type" (Json.str block_type)) block_type inner)

/-- A plain text segment without annotations, as wrapped around string
content by _create_block and around table cell text. -/
def plainTextSegment (s : String) : Json :=
  Json.obj [("type", Json.str "text"),
    ("text", Json.obj [("content", Json.str s)])]

/-- Embedding of _create_block: wrap string content as one segment or
pass a list through, then apply the type-specific configuration with
kwargs overriding only keys already present in the configuration. -/
def _create_block (block_type : String) (content : Content)
    (kwargs : List (String × Json)) : Json :=
  let rich_text : List Json :=
    match content with
    | Content.richArray l => l
    | Content.text s => [plainTextSegment s]
  let inner : List (String × Json) := [("rich_text", Json.arr rich_text)]
  let inner :=
    match dictGet BLOCK_CONFIGS block_type with
    | some config =>
        dictUpdate inner
          (dictUpdate config (kwargs.filter (fun p => dictHas config p.1)))
    | none => inner
  mkBlockObj block_type (Json.obj inner)

/-- Embedding of _create_structural_block: text-free blocks with a
per-type static configuration; the equation expression comes from
kwargs.get("expression", "E = mc^2"). -/
def _create_structural_block (block_type : String)
    (kwargs : List (String × Json)) : Json :=
  let configs : List (String × Json) :=
    [("divider", Json.obj []),
     ("table_of_contents", Json.obj [("color", Json.str "default")]),
     ("breadcrumb", Json.obj []),
     ("equation", Json.obj [("expression",
        (dictGet kwargs "expression").getD (Json.str "E = mc^2"))])]
  mkBlockObj block_type ((dictGet configs block_type).getD (Json.obj []))

/-- Embedding of _create_media_block: the url is stripped, the inner
layout depends on the media kind, unsupported kinds raise ValueError,
and a truthy caption kwarg adds a caption segment list. -/
def _create_media_block (block_type : String) (url : String)
    (kwargs : List (String × Json)) : Except String Json :=
  let u := pyStrip url
  let content? : Option (List (String × Json)) :=
    if block_type = "image" ∨ block_type = "video" then
      some [("type", Json.str "external"),
            ("external", Json.obj [("url", Json.str u)])]
    else if block_type = "embed" ∨ block_type = "bookmark" ∨
        block_type = "link_preview" then
      some [("url", Json.str u)]
    else none
  match content? with
  | none => Except.error ("Unsupported media block type: " ++ block_type)
  | some block_content =>
    let inner :=
      match dictGet kwargs "caption" with
      | some cap =>
        if pyTruthy cap then
          dictSet block_content "caption"
            (Json.arr [Json.obj [("type", Json.str "text"),
              ("text", Json.obj [("content", cap)])]])
        else block_content
      | none => block_content
    Except.ok (mkBlockObj block_type (Json.obj inner))

/-- Payload built by add_notion_heading_block before the remote append:
the level is clamped to heading_1 outside 1..3. -/
def add_notion_heading_block_payload (level : Int) (content : Content) : Json :=
  _create_block
    (if 1 ≤ level ∧ level ≤ 3 then "heading_" ++ toString level else "heading_1")
    content []

/-- One table row of the given width, each cell a one-element list
holding an empty text segment, as built by add_notion_table_block. -/
def tableRowJson (table_width : Nat) : Json :=
  Json.obj [("type", Json.str "table_row"),
    ("table_row", Json.obj [("cells",
      Json.arr ((List.range table_width).map
        (fun _ => Json.arr [plainTextSegment ""])))])]

/-- Payload built by add_notion_table_block before the remote append: a
table block with the given dimensions and header flags whose children
are table_height identical empty rows. -/
def add_notion_table_block_payload (table_width table_height : Nat)
    (has_column_header has_row_header : Bool) : Json :=
  Json.obj [("type", Json.str "table"),
    ("table", Json.obj [
      ("table_width", Json.num table_width),
      ("has_column_header", Json.bool has_column_header),
      ("has_row_header", Json.bool has_row_header),
      ("children", Json.arr ((List.range table_height).map
        (fun _ => tableRowJson table_width)))])]

/-- Embedding of the table tool wrapper produced by
create_unified_tool_func(add_notion_table_block, ["page_id"],
defaults table_width 1, table_height 1, headers false).  The input is
the parsed tool-call JSON object.  A falsy or missing page_id raises the
required-parameter ValueError.  When the input carries a text or
rich_text_array key the wrapper forwards the content as a positional
argument, which collides with the table_width keyword and raises a
TypeError; both raises are caught and reported as errors.  Otherwise
each optional parameter is taken from the input when present and from
its non-None default otherwise, and dimension values that are not an
int, or header values that are not a bool, fail the grid construction
with a TypeError. -/
def add_table_tool_func (data : Json) : Except String Json :=
  match data with
  | Json.obj fields =>
    if pyTruthyOpt (dictGet fields "page_id") = false then
      Except.error "page_id are required"
    else if (dictGet fields "rich_text_array").isSome ∨
        (dictGet fields "text").isSome then
      Except.error "got multiple values for argument"
    else
      match (dictGet fields "table_width").getD (Json.num 1),
            (dictGet fields "table_height").getD (Json.num 1),
            (dictGet fields "has_column_header").getD (Json.bool false),
            (dictGet fields "has_row_header").getD (Json.bool false) with
      | Json.num w, Json.num h, Json.bool c, Json.bool r =>
          Except.ok (add_notion_table_block_payload w.toNat h.toNat c r)
      | _, _, _, _ => Except.error "unsupported operand type"
  | _ => Except.error "string indices must be integers"

/-- The declared type of a block payload. -/
def blockTypeOf (b : Json) : Option Json :=
  b.getObj "type"

/-- The rich_text segment list stored under the type key of a block
payload built by _create_block. -/
def richTextOf (block_type : String) (b : Json) : Option (List Json) :=
  match (b.getObj block_type).bind (fun inner => inner.getObj "rich_text") with
  | some (Json.arr l) => some l
  | _ => none

/-- The table_width recorded in a table payload. -/
def tableWidthOf (t : Json) : Option Json :=
  (t.getObj "table").bind (fun tb => tb.getObj "table_width")

/-- The number of row children of a table payload. -/
def tableRowCount (t : Json) : Option Nat :=
  match (t.getObj "table").bind (fun tb => tb.getObj "children") with
  | some (Json.arr rows) => some rows.length
  | _ => none

/-! ## Dictionary lemmas -/

theorem dictGet_dictSet_self {α : Type} (d : List (String × α)) (k : String) (v : α) :
    dictGet (dictSet d k v) k = some v := by
  induction d with
  | nil => simp [dictSet, dictGet]
  | cons p rest ih =>
    obtain ⟨k', v'⟩ := p
    by_cases h : k' = k
    · subst h; simp [dictSet, dictGet]
    · simp [dictSet, dictGet, h, ih]

theorem dictGet_dictSet_ne {α : Type} (d : List (String × α)) {k' k : String} (v : α)
    (h : k' ≠ k) : dictGet (dictSet d k' v) k = dictGet d k := by
  induction d with
  | nil => simp [dictSet, dictGet, h]
  | cons p rest ih =>
    obtain ⟨k₁, v₁⟩ := p
    by_cases h₁ : k₁ = k'
    · subst h₁; simp [dictSet, dictGet, h]
    · simp [dictSet, dictGet, h₁, ih]

theorem dictGet_eq_none_of_not_mem {α : Type} {d : List (String × α)} {k : String}
    (h : k ∉ d.map Prod.fst) : dictGet d k = none := by
  induction d with
  | nil => rfl
  | cons p rest ih =>
    obtain ⟨k₁, v₁⟩ := p
    simp only [List.map_cons, List.mem_cons] at h
    push_neg at h
    have hne : k₁ ≠ k := Ne.symm h.1
    simp [dictGet, hne, ih h.2]

theorem mem_keys_of_dictGet_some {α : Type} {d : List (String × α)} {k : String} {v : α}
    (h : dictGet d k = some v) : k ∈ d.map Prod.fst := by
  induction d with
  | nil => simp [dictGet] at h
  | cons p rest ih =>
    obtain ⟨k₁, v₁⟩ := p
    by_cases h₁ : k₁ = k
    · subst h₁; simp
    · simp only [dictGet, if_neg h₁] at h
      simp [ih h]

theorem keys_dictSet_of_mem {α : Type} {d : List (String × α)} {k : String} (v : α)
    (h : k ∈ d.map Prod.fst) : (dictSet d k v).map Prod.fst = d.map Prod.fst := by
  induction d with
  | nil => simp at h
  | cons p rest ih =>
    obtain ⟨k₁, v₁⟩ := p
    by_cases h₁ : k₁ = k
    · subst h₁; simp [dictSet]
    · have hk : k ∈ rest.map Prod.fst := by
        simp only [List.map_cons, List.mem_cons] at h
        rcases h with h | h
        · exact absurd h.symm h₁
        · exact h
      simp [dictSet, h₁, ih hk]

theorem keys_dictUpdate {α : Type} (upd d : List (String × α))
    (h : ∀ p ∈ upd, p.1 ∈ d.map Prod.fst) :
    (dictUpdate d upd).map Prod.fst = d.map Prod.fst := by
  induction upd generalizing d with
  | nil => rfl
  | cons p t ih =>
    obtain ⟨k, v⟩ := p
    have hk : k ∈ d.map Prod.fst := h (k, v) (List.mem_cons_self _ _)
    have hset := keys_dictSet_of_mem (d := d) (k := k) v hk
    have : dictUpdate d ((k, v) :: t) = dictUpdate (dictSet d k v) t := rfl
    rw [this, ih (dictSet d k v) (fun q hq => by rw [hset]; exact h q (List.mem_cons_of_mem _ hq)), hset]

theorem dictGet_dictUpdate {α : Type} (upd d : List (String × α)) (k : String)
    (h : (upd.map Prod.fst).Nodup) :
    dictGet (dictUpdate d upd) k = (dictGet upd k).or (dictGet d k) := by
  induction upd generalizing d with
  | nil => simp [dictUpdate, dictGet]
  | cons p t ih =>
    obtain ⟨k₁, v₁⟩ := p
    simp only [List.map_cons, List.nodup_cons] at h
    have hstep : dictUpdate d ((k₁, v₁) :: t) = dictUpdate (dictSet d k₁ v₁) t := rfl
    rw [hstep, ih (dictSet d k₁ v₁) h.2]
    by_cases hk : k₁ = k
    · subst hk
      have ht : dictGet t k₁ = none :=
        dictGet_eq_none_of_not_mem (by simpa using h.1)
      simp [dictGet, ht, dictGet_dictSet_self]
    · simp [dictGet, hk, dictGet_dictSet_ne _ _ hk]

theorem dict_ext {α : Type} (d₁ d₂ : List (String × α))
    (hkeys : d₁.map Prod.fst = d₂.map Prod.fst)
    (hnd : (d₁.map Prod.fst).Nodup)
    (hget : ∀ k, dictGet d₁ k = dictGet d₂ k) : d₁ = d₂ := by
  induction d₁ generalizing d₂ with
  | nil =>
    cases d₂ with
    | nil => rfl
    | cons q t => simp at hkeys
  | cons p t₁ ih =>
    obtain ⟨k, v⟩ := p
    cases d₂ with
    | nil => simp at hkeys
    | cons q t₂ =>
      obtain ⟨k₂, v₂⟩ := q
      simp only [List.map_cons, List.cons.injEq] at hkeys
      obtain ⟨hk, hrest⟩ := hkeys
      subst hk
      simp only [List.map_cons, List.nodup_cons] at hnd
      have hv : v = v₂ := by
        have := hget k
        simpa [dictGet] using this
      subst hv
      have hgt : ∀ x, dictGet t₁ x = dictGet t₂ x := by
        intro x
        by_cases hx : k = x
        · subst hx
          rw [dictGet_eq_none_of_not_mem hnd.1,
            dictGet_eq_none_of_not_mem (by rw [← hrest]; exact hnd.1)]
        · have := hget x
          simpa [dictGet, hx] using this
      rw [ih t₂ hrest hnd.2 hgt]

theorem dictGet_filter_key {α : Type} (l : List (String × α)) (q : String → Bool) (k : String) :
    dictGet (l.filter (fun p => q p.1)) k = if q k then dictGet l k else none := by
  induction l with
  | nil => cases hq : q k <;> simp [dictGet, hq]
  | cons p t ih =>
    obtain ⟨k₁, v₁⟩ := p
    by_cases hq₁ : q k₁
    · rw [List.filter_cons_of_pos (by simpa using hq₁)]
      by_cases hk : k₁ = k
      · subst hk; simp [dictGet, hq₁]
      · simp [dictGet, hk, ih]
    · rw [List.filter_cons_of_neg (by simpa using hq₁)]
      rw [ih]
      by_cases hqk : q k
      · have hk : k₁ ≠ k := fun h => hq₁ (h ▸ hqk)
        simp [dictGet, hk, hqk]
      · simp [hqk]

theorem nodup_keys_filter {α : Type} (l : List (String × α)) (f : String × α → Bool)
    (h : (l.map Prod.fst).Nodup) : ((l.filter f).map Prod.fst).Nodup :=
  List.Nodup.sublist (List.Sublist.map Prod.fst (List.filter_sublist l)) h

theorem BLOCK_CONFIGS_keys {bt : String} {config : List (String × Json)}
    (h : dictGet BLOCK_CONFIGS bt = some config) :
    "rich_text" ∉ config.map Prod.fst ∧ (config.map Prod.fst).Nodup := by
  simp only [BLOCK_CONFIGS, dictGet] at h
  split_ifs at h <;> simp only [Option.some.injEq] at h <;> subst h <;> constructor <;> decide

/-! ## Claim theorems: Span Annotator -/

theorem concatContents_length (l : List Json) :
    (concatContents l).length = (l.map (fun s => (segContent s).length)).sum := by
  induction l with
  | nil => rfl
  | cons a t ih =>
    have hstep : concatContents (a :: t) = segContent a ++ concatContents t := rfl
    rw [hstep, String.length_append, ih]
    simp

/-- C1: whenever the annotator consults its oracle (non-blank
format_instructions) and the oracle call raises, the response fails to
parse as JSON, or it parses to a non-array, the stage still returns
success true with exactly one segment holding the full result_text under
all-default annotations, and the envelope is tagged fallback true. -/
theorem C1_fallback_guarantee (oracle : OracleOutcome)
    (format_instructions result_text : String)
    (hfi : pyStrip format_instructions ≠ "")
    (hbad : oracleFailed oracle = true) :
    (create_formatted_rich_text_array oracle format_instructions result_text).getObj
      "success" = some (Json.bool true) ∧
    (create_formatted_rich_text_array oracle format_instructions result_text).getObj
      "rich_text_array" =
        some (Json.arr [Json.obj [("type", Json.str "text"),
          ("text", Json.obj [("content", Json.str result_text)]),
          ("annotations", defaultAnnotations)]]) ∧
    (create_formatted_rich_text_array oracle format_instructions result_text).getObj
      "segments_count" = some (Json.num 1) ∧
    (create_formatted_rich_text_array oracle format_instructions result_text).getObj
      "fallback" = some (Json.bool true) := by
  unfold create_formatted_rich_text_array
  rw [if_neg hfi]
  cases oracle with
  | raises msg => exact ⟨rfl, rfl, rfl, rfl⟩
  | unparsable msg => exact ⟨rfl, rfl, rfl, rfl⟩
  | parsed j =>
    cases j with
    | arr l => simp [oracleFailed] at hbad
    | null => exact ⟨rfl, rfl, rfl, rfl⟩
    | bool b => exact ⟨rfl, rfl, rfl, rfl⟩
    | num n => exact ⟨rfl, rfl, rfl, rfl⟩
    | str s => exact ⟨rfl, rfl, rfl, rfl⟩
    | obj fs => exact ⟨rfl, rfl, rfl, rfl⟩

theorem C1_fallback_guarantee_witness :
    (create_formatted_rich_text_array (OracleOutcome.unparsable "boom") "b" "Hello").getObj
      "fallback" = some (Json.bool true) :=
  (C1_fallback_guarantee (OracleOutcome.unparsable "boom") "b" "Hello"
    (by decide) rfl).2.2.2

/-- C2 counterexample: the claim that every non-fallback annotator
output concatenates back to result_text is false.  The success branch
returns the oracle array unvalidated: an oracle array holding one
segment with content "x" against result_text "Hello" yields a
success-true, untagged result whose segments concatenate to "x". -/
theorem C2_counterexample :
    (create_formatted_rich_text_array
        (OracleOutcome.parsed (Json.arr [plainRichTextSegment "x"]))
        "make Hello bold" "Hello").getObj "success" = some (Json.bool true) ∧
    (create_formatted_rich_text_array
        (OracleOutcome.parsed (Json.arr [plainRichTextSegment "x"]))
        "make Hello bold" "Hello").getObj "fallback" = none ∧
    resultSegments (create_formatted_rich_text_array
        (OracleOutcome.parsed (Json.arr [plainRichTextSegment "x"]))
        "make Hello bold" "Hello") = [plainRichTextSegment "x"] ∧
    concatContents [plainRichTextSegment "x"] = "x" ∧
    "x" ≠ "Hello" := by
  exact ⟨rfl, rfl, rfl, by decide, by decide⟩

/-- C2 amended: the non-fallback success output carries the oracle
array verbatim, so its segments concatenate to result_text, and their
lengths sum to the length of result_text, exactly when the oracle array
provides that coverage; the stage itself does not check it. -/
theorem C2_segment_coverage (format_instructions result_text : String)
    (a : List Json)
    (hfi : pyStrip format_instructions ≠ "")
    (hcov : concatContents a = result_text) :
    (create_formatted_rich_text_array (OracleOutcome.parsed (Json.arr a))
      format_instructions result_text).getObj "success" = some (Json.bool true) ∧
    (create_formatted_rich_text_array (OracleOutcome.parsed (Json.arr a))
      format_instructions result_text).getObj "fallback" = none ∧
    resultSegments (create_formatted_rich_text_array (OracleOutcome.parsed (Json.arr a))
      format_instructions result_text) = a ∧
    concatContents (resultSegments (create_formatted_rich_text_array
      (OracleOutcome.parsed (Json.arr a)) format_instructions result_text)) =
        result_text ∧
    ((resultSegments (create_formatted_rich_text_array
      (OracleOutcome.parsed (Json.arr a)) format_instructions result_text)).map
        (fun s => (segContent s).length)).sum = result_text.length := by
  unfold create_formatted_rich_text_array
  rw [if_neg hfi]
  refine ⟨rfl, rfl, rfl, hcov, ?_⟩
  show (a.map (fun s => (segContent s).length)).sum = result_text.length
  rw [← hcov, concatContents_length]

theorem C2_segment_coverage_witness :
    concatContents (resultSegments (create_formatted_rich_text_array
      (OracleOutcome.parsed (Json.arr [plainRichTextSegment "Hello"]))
      "make Hello bold" "Hello")) = "Hello" :=
  (C2_segment_coverage "make Hello bold" "Hello" [plainRichTextSegment "Hello"]
    (by decide) (by decide)).2.2.2.1

/-- C3: blank or whitespace-only format_instructions yield success true
with exactly one segment holding result_text under all-default
annotations, no fallback tag, and the oracle outcome is irrelevant to
the result (the oracle is never consulted). -/
theorem C3_blank_instructions (o₁ o₂ : OracleOutcome)
    (format_instructions result_text : String)
    (hfi : pyStrip format_instructions = "") :
    (create_formatted_rich_text_array o₁ format_instructions result_text).getObj
      "success" = some (Json.bool true) ∧
    (create_formatted_rich_text_array o₁ format_instructions result_text).getObj
      "rich_text_array" =
        some (Json.arr [Json.obj [("type", Json.str "text"),
          ("text", Json.obj [("content", Json.str result_text)]),
          ("annotations", defaultAnnotations)]]) ∧
    (create_formatted_rich_text_array o₁ format_instructions result_text).getObj
      "segments_count" = some (Json.num 1) ∧
    (create_formatted_rich_text_array o₁ format_instructions result_text).getObj
      "fallback" = none ∧
    create_formatted_rich_text_array o₁ format_instructions result_text =
      create_formatted_rich_text_array o₂ format_instructions result_text := by
  unfold create_formatted_rich_text_array
  rw [if_pos hfi, if_pos hfi]
  exact ⟨rfl, rfl, rfl, rfl, rfl⟩

theorem C3_blank_instructions_witness :
    (create_formatted_rich_text_array (OracleOutcome.raises "down") "  " "Hello world").getObj
      "rich_text_array" =
        some (Json.arr [Json.obj [("type", Json.str "text"),
          ("text", Json.obj [("content", Json.str "Hello world")]),
          ("annotations", defaultAnnotations)]]) :=
  (C3_blank_instructions (OracleOutcome.raises "down")
    (OracleOutcome.parsed Json.null) "  " "Hello world" (by decide)).2.1

/-! ## Claim theorems: Instruction Splitter -/

/-- C4: when the structural oracle response fails json.loads (whose
exception message is never empty, reflected in the hypothesis) or parses
to anything that is not an object carrying both instruction keys, the
split stage returns success false with all three payload fields empty
and a non-empty error diagnostic. -/
theorem C4_split_hard_failure (splitOracle : OracleOutcome) (textOracle : LLMOutcome)
    (hbad : (∃ msg, splitOracle = OracleOutcome.unparsable msg ∧ msg ≠ "") ∨
            (∃ j, splitOracle = OracleOutcome.parsed j ∧ hasBothKeys j = false)) :
    (call_preprocessing_agent splitOracle textOracle).success = false ∧
    (call_preprocessing_agent splitOracle textOracle).block_instructions = Json.str "" ∧
    (call_preprocessing_agent splitOracle textOracle).format_instructions = Json.str "" ∧
    (call_preprocessing_agent splitOracle textOracle).result_text = "" ∧
    (call_preprocessing_agent splitOracle textOracle).error ≠ "" := by
  rcases hbad with ⟨msg, rfl, hmsg⟩ | ⟨j, rfl, hj⟩
  · exact ⟨rfl, rfl, rfl, rfl, hmsg⟩
  · cases j with
    | obj fields =>
      simp only [hasBothKeys, dictHas, Bool.and_eq_false_iff] at hj
      have hgoal : call_preprocessing_agent (OracleOutcome.parsed (Json.obj fields))
          textOracle =
          { success := false, block_instructions := Json.str "",
            format_instructions := Json.str "", result_text := "",
            error := "Invalid response format" } := by
        simp only [call_preprocessing_agent]
        rcases hbi : dictGet fields "block_instructions" with _ | bi
        · rcases hfi : dictGet fields "format_instructions" with _ | fi <;> rfl
        · rcases hfi : dictGet fields "format_instructions" with _ | fi
          · rfl
          · exfalso
            rcases hj with hj | hj <;> simp [hbi, hfi] at hj
      rw [hgoal]
      exact ⟨rfl, rfl, rfl, rfl, by decide⟩
    | null =>
      exact ⟨rfl, rfl, rfl, rfl, show "Invalid response format" ≠ "" by decide⟩
    | bool b =>
      exact ⟨rfl, rfl, rfl, rfl, show "Invalid response format" ≠ "" by decide⟩
    | num n =>
      exact ⟨rfl, rfl, rfl, rfl, show "Invalid response format" ≠ "" by decide⟩
    | str s =>
      exact ⟨rfl, rfl, rfl, rfl, show "Invalid response format" ≠ "" by decide⟩
    | arr l =>
      exact ⟨rfl, rfl, rfl, rfl, show "Invalid response format" ≠ "" by decide⟩

theorem C4_split_hard_failure_witness :
    (call_preprocessing_agent (OracleOutcome.parsed (Json.arr []))
      (LLMOutcome.returns "text")).success = false :=
  (C4_split_hard_failure (OracleOutcome.parsed (Json.arr []))
    (LLMOutcome.returns "text") (Or.inr ⟨Json.arr [], rfl, rfl⟩)).1

/-- C5: a raising oracle inside extract_result_text degrades to the
empty string, and the split stage still succeeds with the validated
instruction fields and an empty result_text. -/
theorem C5_result_text_degrades (fields : List (String × Json)) (bi fi : Json)
    (msg : String)
    (hbi : dictGet fields "block_instructions" = some bi)
    (hfi : dictGet fields "format_instructions" = some fi) :
    extract_result_text (LLMOutcome.raises msg) = "" ∧
    call_preprocessing_agent (OracleOutcome.parsed (Json.obj fields))
        (LLMOutcome.raises msg) =
      { success := true, block_instructions := bi, format_instructions := fi,
        result_text := "", error := "" } := by
  refine ⟨rfl, ?_⟩
  unfold call_preprocessing_agent
  simp only [hbi, hfi]
  rfl

theorem C5_result_text_degrades_witness :
    call_preprocessing_agent
        (OracleOutcome.parsed (Json.obj
          [("block_instructions", Json.str "Heading 1: title"),
           ("format_instructions", Json.str "bold title")]))
        (LLMOutcome.raises "timeout") =
      { success := true, block_instructions := Json.str "Heading 1: title",
        format_instructions := Json.str "bold title",
        result_text := "", error := "" } :=
  (C5_result_text_degrades
    [("block_instructions", Json.str "Heading 1: title"),
     ("format_instructions", Json.str "bold title")]
    (Json.str "Heading 1: title") (Json.str "bold title") "timeout" rfl rfl).2

/-! ## Claim theorems: tables and the table tool -/

/-- C6 counterexample: a table tool call with no dimension keys does not
produce a 3 by 4 table; the wrapper defaults and the builder defaults
are both width 1, height 1.  The 3 by 4 default exists only as prompt
text addressed to the oracle in the block agent. -/
theorem C6_counterexample :
    add_table_tool_func (Json.obj [("page_id", Json.str "page")]) =
      Except.ok (add_notion_table_block_payload 1 1 false false) ∧
    tableWidthOf (add_notion_table_block_payload 1 1 false false) =
      some (Json.num 1) ∧
    tableRowCount (add_notion_table_block_payload 1 1 false false) = some 1 ∧
    Json.num 1 ≠ Json.num 3 ∧ (1 : Nat) ≠ 4 := by
  refine ⟨rfl, rfl, rfl, ?_, by decide⟩
  simp

/-- C6 amended: when a table block request reaches the tool layer with
no dimension keys, the synthesized table payload uses the tool defaults
table_width 1 and table_height 1 (not 3 and 4); the width-3 height-4
default is only an instruction to the oracle inside the block agent
prompt, not enforced by code. -/
theorem C6_missing_dimensions_default (fields : List (String × Json))
    (hpid : pyTruthyOpt (dictGet fields "page_id") = true)
    (hra : dictGet fields "rich_text_array" = none)
    (htx : dictGet fields "text" = none)
    (hw : dictGet fields "table_width" = none)
    (hh : dictGet fields "table_height" = none)
    (hch : dictGet fields "has_column_header" = none)
    (hrh : dictGet fields "has_row_header" = none) :
    add_table_tool_func (Json.obj fields) =
      Except.ok (add_notion_table_block_payload 1 1 false false) := by
  simp only [add_table_tool_func]
  rw [hpid, hra, htx, hw, hh, hch, hrh]
  rfl

theorem C6_missing_dimensions_default_witness :
    add_table_tool_func (Json.obj [("page_id", Json.str "page")]) =
      Except.ok (add_notion_table_block_payload 1 1 false false) :=
  C6_missing_dimensions_default [("page_id", Json.str "page")]
    rfl rfl rfl rfl rfl rfl rfl

/-- C7: the table payload built before the remote call records the given
width and header flags and holds exactly table_height row children, each
with exactly table_width cells, every cell a single empty text segment. -/
theorem C7_table_grid (w h : Nat) (ch rh : Bool) :
    tableWidthOf (add_notion_table_block_payload w h ch rh) = some (Json.num w) ∧
    ((add_notion_table_block_payload w h ch rh).getObj "table").bind
      (fun tb => tb.getObj "has_column_header") = some (Json.bool ch) ∧
    ((add_notion_table_block_payload w h ch rh).getObj "table").bind
      (fun tb => tb.getObj "has_row_header") = some (Json.bool rh) ∧
    (∃ rows, ((add_notion_table_block_payload w h ch rh).getObj "table").bind
        (fun tb => tb.getObj "children") = some (Json.arr rows) ∧
      rows.length = h ∧
      ∀ row ∈ rows, ∃ cells,
        (row.getObj "table_row").bind (fun tr => tr.getObj "cells") =
          some (Json.arr cells) ∧
        cells.length = w ∧
        ∀ cell ∈ cells,
          cell = Json.arr [Json.obj [("type", Json.str "text"),
            ("text", Json.obj [("content", Json.str "")])]]) := by
  refine ⟨rfl, rfl, rfl,
    (List.range h).map (fun _ => tableRowJson w), rfl, by simp, ?_⟩
  intro row hrow
  rw [List.mem_map] at hrow
  obtain ⟨i, _, hi⟩ := hrow
  subst hi
  refine ⟨(List.range w).map (fun _ => Json.arr [plainTextSegment ""]),
    rfl, by simp, ?_⟩
  intro cell hcell
  rw [List.mem_map] at hcell
  obtain ⟨j, _, hj⟩ := hcell
  subst hj
  rfl

/-- C10: add_notion_heading_block builds a heading_level block for
levels 1, 2, 3 and silently clamps every other integer level to
heading_1 rather than failing. -/
theorem C10_heading_level_clamped (level : Int) (content : Content) :
    ((level = 1 ∨ level = 2 ∨ level = 3) →
      blockTypeOf (add_notion_heading_block_payload level content) =
        some (Json.str ("heading_" ++ toString level))) ∧
    (¬(level = 1 ∨ level = 2 ∨ level = 3) →
      blockTypeOf (add_notion_heading_block_payload level content) =
        some (Json.str "heading_1")) := by
  constructor
  · rintro (rfl | rfl | rfl) <;> cases content <;> rfl
  · intro hlev
    have hcond : ¬(1 ≤ level ∧ level ≤ 3) := by omega
    unfold add_notion_heading_block_payload
    rw [if_neg hcond]
    cases content <;> rfl

theorem C10_heading_level_clamped_witness :
    blockTypeOf (add_notion_heading_block_payload 2 (Content.text "t")) =
      some (Json.str "heading_2") ∧
    blockTypeOf (add_notion_heading_block_payload 5 (Content.text "t")) =
      some (Json.str "heading_1") ∧
    blockTypeOf (add_notion_heading_block_payload (-1) (Content.text "t")) =
      some (Json.str "heading_1") :=
  ⟨(C10_heading_level_clamped 2 (Content.text "t")).1 (Or.inr (Or.inl rfl)),
   (C10_heading_level_clamped 5 (Content.text "t")).2 (by decide),
   (C10_heading_level_clamped (-1) (Content.text "t")).2 (by decide)⟩

/-! ## Claim theorems: block construction -/

theorem getObj_mkBlockObj (block_type : String) (inner : Json) :
    (mkBlockObj block_type inner).getObj block_type = some inner := by
  simp [mkBlockObj, Json.getObj, dictGet_dictSet_self]

theorem richTextOf_mkBlockObj (block_type : String)
    (inner : List (String × Json)) (rt : List Json)
    (h : dictGet inner "rich_text" = some (Json.arr rt)) :
    richTextOf block_type (mkBlockObj block_type (Json.obj inner)) = some rt := by
  unfold richTextOf
  rw [getObj_mkBlockObj]
  simp [Json.getObj, h]

theorem dictGet_rich_text_inner (rt : List Json)
    (config kwargs : List (String × Json))
    (hnm : "rich_text" ∉ config.map Prod.fst)
    (hnd : (config.map Prod.fst).Nodup) :
    dictGet (dictUpdate [("rich_text", Json.arr rt)]
        (dictUpdate config (kwargs.filter (fun p => dictHas config p.1))))
      "rich_text" = some (Json.arr rt) := by
  have hsub : ∀ p ∈ kwargs.filter (fun p => dictHas config p.1),
      p.1 ∈ config.map Prod.fst := by
    intro p hp
    have hh : dictHas config p.1 = true := by
      simpa using (List.mem_filter.mp hp).2
    obtain ⟨v, hv⟩ := Option.isSome_iff_exists.mp (by simpa [dictHas] using hh)
    exact mem_keys_of_dictGet_some hv
  have hkeys := keys_dictUpdate (kwargs.filter (fun p => dictHas config p.1)) config hsub
  have hndU : ((dictUpdate config
      (kwargs.filter (fun p => dictHas config p.1))).map Prod.fst).Nodup := by
    rw [hkeys]; exact hnd
  have hnone : dictGet (dictUpdate config
      (kwargs.filter (fun p => dictHas config p.1))) "rich_text" = none :=
    dictGet_eq_none_of_not_mem (by rw [hkeys]; exact hnm)
  rw [dictGet_dictUpdate _ _ _ hndU, hnone]
  rfl

theorem richTextOf_create_block (block_type : String) (content : Content)
    (kwargs : List (String × Json)) :
    richTextOf block_type (_create_block block_type content kwargs) =
      some (match content with
        | Content.text s => [plainTextSegment s]
        | Content.richArray l => l) := by
  cases content with
  | text s =>
    unfold _create_block
    cases hcfg : dictGet BLOCK_CONFIGS block_type with
    | none => exact richTextOf_mkBlockObj _ _ _ rfl
    | some config =>
      obtain ⟨hnm, hnd⟩ := BLOCK_CONFIGS_keys hcfg
      exact richTextOf_mkBlockObj _ _ _
        (dictGet_rich_text_inner _ config kwargs hnm hnd)
  | richArray l =>
    unfold _create_block
    cases hcfg : dictGet BLOCK_CONFIGS block_type with
    | none => exact richTextOf_mkBlockObj _ _ _ rfl
    | some config =>
      obtain ⟨hnm, hnd⟩ := BLOCK_CONFIGS_keys hcfg
      exact richTextOf_mkBlockObj _ _ _
        (dictGet_rich_text_inner _ config kwargs hnm hnd)

/-- C8 counterexample: the non-emptiness half of the claim fails.  A
segment-array content that is itself empty is carried through unchanged,
so the constructed paragraph block carries an empty rich_text sequence. -/
theorem C8_counterexample :
    ¬ (∀ (bt : String) (c : Content) (kw : List (String × Json)) (l : List Json),
        richTextOf bt (_create_block bt c kw) = some l → l ≠ []) := by
  intro hclaim
  exact hclaim "paragraph" (Content.richArray []) [] [] rfl rfl

/-- C8 amended: every text-bearing block built by _create_block carries
its content under rich_text as a segment list and never as a bare
string: plain string content (including the empty string) is wrapped as
exactly one segment, hence a non-empty sequence, and segment-array
content is carried through unchanged, hence non-empty exactly when the
provided array is. -/
theorem C8_text_blocks_never_bare_string (block_type : String) (content : Content)
    (kwargs : List (String × Json)) :
    ∃ l, richTextOf block_type (_create_block block_type content kwargs) = some l ∧
      (∀ s, content = Content.text s → l = [plainTextSegment s] ∧ l ≠ []) ∧
      (∀ a, content = Content.richArray a → l = a) := by
  refine ⟨_, richTextOf_create_block block_type content kwargs, ?_, ?_⟩
  · rintro s rfl
    exact ⟨rfl, by simp⟩
  · rintro a rfl
    rfl

theorem C8_text_blocks_never_bare_string_witness :
    ∃ l, richTextOf "paragraph" (_create_block "paragraph" (Content.text "") []) =
        some l ∧
      (∀ s, Content.text "" = Content.text s → l = [plainTextSegment s] ∧ l ≠ []) ∧
      (∀ a, Content.text "" = Content.richArray a → l = a) :=
  C8_text_blocks_never_bare_string "paragraph" (Content.text "") []

theorem applyKwargs_ext (config kw₁ kw₂ : List (String × Json))
    (hnd : (config.map Prod.fst).Nodup)
    (h₁ : (kw₁.map Prod.fst).Nodup) (h₂ : (kw₂.map Prod.fst).Nodup)
    (heq : ∀ k, dictGet kw₁ k = dictGet kw₂ k) :
    dictUpdate config (kw₁.filter (fun p => dictHas config p.1)) =
      dictUpdate config (kw₂.filter (fun p => dictHas config p.1)) := by
  have hsub : ∀ (kw : List (String × Json)),
      ∀ p ∈ kw.filter (fun p => dictHas config p.1),
        p.1 ∈ config.map Prod.fst := by
    intro kw p hp
    have hh : dictHas config p.1 = true := by
      simpa using (List.mem_filter.mp hp).2
    obtain ⟨v, hv⟩ := Option.isSome_iff_exists.mp (by simpa [dictHas] using hh)
    exact mem_keys_of_dictGet_some hv
  have hk1 := keys_dictUpdate (kw₁.filter (fun p => dictHas config p.1)) config (hsub kw₁)
  have hk2 := keys_dictUpdate (kw₂.filter (fun p => dictHas config p.1)) config (hsub kw₂)
  apply dict_ext
  · rw [hk1, hk2]
  · rw [hk1]; exact hnd
  · intro k
    rw [dictGet_dictUpdate _ _ _ (nodup_keys_filter _ _ h₁),
      dictGet_dictUpdate _ _ _ (nodup_keys_filter _ _ h₂),
      dictGet_filter_key, dictGet_filter_key, heq k]

/-- C9: the block encodings are pure functions of their inputs: two
invocations of _create_block, _create_structural_block and
_create_media_block with the same block type, content and url, and with
keyword-argument dictionaries that are equal as dictionaries (same
lookups, well-formed keys), produce identical payloads. -/
theorem C9_deterministic_encoding (block_type : String) (content : Content)
    (url : String) (kw₁ kw₂ : List (String × Json))
    (h₁ : (kw₁.map Prod.fst).Nodup) (h₂ : (kw₂.map Prod.fst).Nodup)
    (heq : ∀ k, dictGet kw₁ k = dictGet kw₂ k) :
    _create_block block_type content kw₁ = _create_block block_type content kw₂ ∧
    _create_structural_block block_type kw₁ = _create_structural_block block_type kw₂ ∧
    _create_media_block block_type url kw₁ = _create_media_block block_type url kw₂ := by
  refine ⟨?_, ?_, ?_⟩
  · unfold _create_block
    cases hcfg : dictGet BLOCK_CONFIGS block_type with
    | none => rfl
    | some config =>
      obtain ⟨hnm, hnd⟩ := BLOCK_CONFIGS_keys hcfg
      exact congrArg
        (fun u => mkBlockObj block_type (Json.obj (dictUpdate
          [("rich_text", Json.arr (match content with
            | Content.richArray l => l
            | Content.text s => [plainTextSegment s]))] u)))
        (applyKwargs_ext config kw₁ kw₂ hnd h₁ h₂ heq)
  · unfold _create_structural_block
    rw [heq "expression"]
  · unfold _create_media_block
    simp only [heq "caption"]

theorem C9_deterministic_encoding_witness :
    _create_block "to_do" (Content.text "item")
        [("checked", Json.bool true), ("color", Json.str "red")] =
      _create_block "to_do" (Content.text "item")
        [("color", Json.str "red"), ("checked", Json.bool true)] :=
  (C9_deterministic_encoding "to_do" (Content.text "item") "https://x"
    [("checked", Json.bool true), ("color", Json.str "red")]
    [("color", Json.str "red"), ("checked", Json.bool true)]
    (by decide) (by decide)
    (fun k => by
      by_cases hc : "checked" = k
      · by_cases ho : "color" = k
        · exact absurd (hc.trans ho.symm) (by decide)
        · simp [dictGet, hc, ho]
      · by_cases ho : "color" = k
        · simp [dictGet, hc, ho]
        · simp [dictGet, hc, ho])).1

theorem C7_table_grid_witness :
    ∃ rows, ((add_notion_table_block_payload 3 4 true false).getObj "table").bind
        (fun tb => tb.getObj "children") = some (Json.arr rows) ∧
      rows.length = 4 ∧
      ∀ row ∈ rows, ∃ cells,
        (row.getObj "table_row").bind (fun tr => tr.getObj "cells") =
          some (Json.arr cells) ∧
        cells.length = 3 ∧
        ∀ cell ∈ cells,
          cell = Json.arr [Json.obj [("type", Json.str "text"),
            ("text", Json.obj [("content", Json.str "")])]] :=
  (C7_table_grid 3 4 true false).2.2.2
